import Mathlib

/-!
Shallow embedding of the report aggregation engine of
`src/backend/lists/serializers.py` (the code between the
`Begin report generation` and `End report generation` markers:
`ReportQuestionSerializer.get_answer`, `ReportQuestionSerializer.get_notes`
and `ReportSurveySerializer.get_questions`), together with the data model
of §3 of the spec.

Modelling decisions, each tied to a line of the source:

* Record ids are `Nat` and id comparisons (`x.question_id is obj.id`,
  `x.survey_id is obj.id`, …) are value equality.  The source uses Python
  `is`, which coincides with `==` on CPython's interned small integers;
  the spec's design notes (§9) mandate value equality for any
  reimplementation, so the embedding uses `==`.
* `obj.key_choices.split(";")` is embedded as `pySplit`, a direct model of
  Python `str.split` with a one-character separator (in particular
  `pySplit "" ';' = [""]`, exactly as `"".split(";") == [""]` in Python).
* `defaultdict(list)` indexing of answers by `response_id` preserves input
  order and yields `[]` for an absent key, so `dict_response_answers[r.id]`
  is embedded as an order-preserving filter (`responseAnswers`).
* Timestamps (`created`) are abstract `Nat` values; attachment files are
  abstract URL strings (`k.file.url`).
* The `Question` model class itself is not under `src/`; its fields are
  taken from §3 of the spec, and `is_key` is modelled from the spec (see
  `Question.is_key`).
* The attachment query in `get_questions`
  (`Attachment.objects.filter(content_type_id=…, object_id__in=resps_id)`)
  is an external fetch; it is embedded as a filter over a given store of
  response-owned attachments (`surveyPhotos`), the `content_type` condition
  being implicit in the `Attachment` type (spec §9 replaces the polymorphic
  owner by a typed response reference).
-/

/-- Survey record (spec §3): id and name (the only fields the report
aggregation path reads). -/
structure Survey where
  id : Nat
  name : String
deriving DecidableEq

/-- Question record (spec §3): id, owning survey, text, order, required
flag, type tag, choices and the semicolon-separated `key_choices` trigger
string. -/
structure Question where
  id : Nat
  survey_id : Nat
  text : String
  order : Nat
  required : Bool
  type : String
  choices : String
  key_choices : String
deriving DecidableEq

/-- Modelled from the spec: the `Question` model file is not under `src/`
(only `serializers.py` and `models/response.py` are).  Spec §3 defines
`is_key` as a bool "consistent with key_choices presence" and states "a
question is key iff this set is non-empty", so `is_key` is derived:
a question is key exactly when its `key_choices` string is non-empty. -/
def Question.is_key (q : Question) : Bool :=
  q.key_choices != ""

/-- Response record (spec §3, `models/response.py`): id, owning survey and
creation timestamp (the fields the report path reads). -/
structure Response where
  id : Nat
  survey_id : Nat
  created : Nat
deriving DecidableEq

/-- Answer record (spec §3): id, owning response, answered question and
text body. -/
structure Answer where
  id : Nat
  response_id : Nat
  question_id : Nat
  body : String
deriving DecidableEq

/-- Attachment record (spec §3): id, owning response (`object_id` of a
Response-typed generic reference) and the served file URL. -/
structure Attachment where
  id : Nat
  object_id : Nat
  fileUrl : String
deriving DecidableEq

/-- One element of a note's `keys` list: either a
`{"name": question text, "answer": answer body}` pair or an
`{"name": "image", "keys": url}` photo entry (`serializers.py` lines
249-256). -/
inductive KeyEntry where
  | qa (name : String) (answer : String)
  | image (url : String)
deriving DecidableEq

/-- One note: `{"created": response.created, "keys": keys}`
(`serializers.py` line 261). -/
structure Note where
  created : Nat
  keys : List KeyEntry
deriving DecidableEq

/-- One serialized question row of the report:
`('id', 'text', 'order', 'choices', 'key_choices', 'notes', 'answer')`
(`ReportQuestionSerializer.Meta.fields`). -/
structure QuestionRow where
  id : Nat
  text : String
  order : Nat
  choices : String
  key_choices : String
  notes : List Note
  answer : Option String
deriving DecidableEq

/-- Helper for `pySplit`: splits a character list on a separator
character, carrying the current chunk in reverse. -/
def splitCharAux (sep : Char) : List Char → List Char → List (List Char)
  | [], cur => [cur.reverse]
  | c :: cs, cur =>
    if c = sep then cur.reverse :: splitCharAux sep cs []
    else splitCharAux sep cs (c :: cur)

/-- Python `str.split(sep)` for a one-character separator: splits on every
occurrence of `sep`, keeping empty chunks; on the empty string it returns
`[""]`, exactly as Python does. -/
def pySplit (s : String) (sep : Char) : List String :=
  (splitCharAux sep s.data []).map String.mk

/-- The `defaultdict(list)` index of `serializers.py` lines 229-231 and
242-244, looked up at one response id: the answers whose `response_id`
equals `rid`, in input order (Answer Index, spec §4.1). -/
def responseAnswers (answers : List Answer) (rid : Nat) : List Answer :=
  answers.filter (fun x => x.response_id == rid)

/-- The `keys` list built for one response inside
`ReportQuestionSerializer.get_notes` (lines 249-256): for each question of
`self.questions`, one `{name, answer}` pair per answer of this response to
that question, followed by one `{name: "image", keys: url}` entry per
photo in `self.photos`. -/
def noteKeys (questions : List Question) (photos : List Attachment)
    (response_answers : List Answer) : List KeyEntry :=
  (questions.flatMap (fun question =>
      (response_answers.filter (fun x => x.question_id == question.id)).map
        (fun answer => KeyEntry.qa question.text answer.body)))
    ++ photos.map (fun k => KeyEntry.image k.fileUrl)

/-- The body of the `for response in self.responses` loop of
`ReportQuestionSerializer.get_notes` (lines 246-261): one note appended
per answer of this response to `obj` whose body is in
`obj.key_choices.split(";")`. -/
def notesForResponse (questions : List Question) (photos : List Attachment)
    (answers : List Answer) (obj : Question) (response : Response) :
    List Note :=
  let response_answers := responseAnswers answers response.id
  let keys := noteKeys questions photos response_answers
  (((response_answers.filter (fun x => x.question_id == obj.id)).filter
      (fun answer => (pySplit obj.key_choices ';').contains answer.body)).map
    (fun _ => { created := response.created, keys := keys }))

/-- `ReportQuestionSerializer.get_notes` (lines 238-263): the notes list
of question `obj`, accumulated over `self.responses` in order. -/
def get_notes (questions : List Question) (photos : List Attachment)
    (responses : List Response) (answers : List Answer) (obj : Question) :
    List Note :=
  responses.flatMap (notesForResponse questions photos answers obj)

/-- `ReportQuestionSerializer.get_answer` (lines 228-236): the body of the
first answer to `obj` found while scanning `self.responses` in order
(each response's answers in input order); `none` when the loop falls
through (Python's implicit `return None`). -/
def get_answer (responses : List Response) (answers : List Answer)
    (obj : Question) : Option String :=
  responses.findSome? (fun response =>
    (((responseAnswers answers response.id).filter
        (fun x => x.question_id == obj.id)).head?).map
      (fun answer => answer.body))

/-- The `que` list of `ReportSurveySerializer.get_questions` (lines
281-282): the questions of survey `obj`, excluding the `select-image`
type. -/
def surveyQuestions (questions : List Question) (obj : Survey) :
    List Question :=
  questions.filter (fun x => x.survey_id == obj.id && x.type != "select-image")

/-- `dict_que[False]` (lines 284-286): the non-key questions of `que`, in
input order (Question Classifier, spec §4.2). -/
def regularQuestions (questions : List Question) (obj : Survey) :
    List Question :=
  (surveyQuestions questions obj).filter (fun x => !x.is_key)

/-- `dict_que[True]` (lines 284-286): the key questions of `que`, in input
order (Question Classifier, spec §4.2). -/
def keyQuestions (questions : List Question) (obj : Survey) :
    List Question :=
  (surveyQuestions questions obj).filter (fun x => x.is_key)

/-- The `answers` comprehension of `get_questions` (lines 288-290):
`[x for x in self.answers for qu in que if x.question_id is qu.id]`. -/
def surveyAnswers (answers : List Answer) (que : List Question) :
    List Answer :=
  answers.flatMap (fun x =>
    (que.filter (fun qu => x.question_id == qu.id)).map (fun _ => x))

/-- The `resps` list of `get_questions` (lines 292-293): the responses of
survey `obj`. -/
def surveyResponses (responses : List Response) (obj : Survey) :
    List Response :=
  responses.filter (fun x => x.survey_id == obj.id)

/-- The `photos` fetch of `get_questions` (lines 295-299): the
response-owned attachments whose `object_id` is among the ids of
`resps`. -/
def surveyPhotos (attachments : List Attachment) (resps : List Response) :
    List Attachment :=
  attachments.filter (fun x => (resps.map (fun r => r.id)).contains x.object_id)

/-- One serialized row of `ReportQuestionSerializer` for instance `obj`:
the model fields plus the two `SerializerMethodField`s `notes` and
`answer`. -/
def reportRow (questions : List Question) (photos : List Attachment)
    (responses : List Response) (answers : List Answer) (obj : Question) :
    QuestionRow :=
  { id := obj.id
    text := obj.text
    order := obj.order
    choices := obj.choices
    key_choices := obj.key_choices
    notes := get_notes questions photos responses answers obj
    answer := get_answer responses answers obj }

/-- `ReportSurveySerializer.get_questions` (lines 280-306): serializes
`dict_que[False]` (the regular questions) with context
`responses=resps`, `answers=answers`, `questions=dict_que[True]` (the key
questions) and `photos=photos`. -/
def get_questions (questions : List Question) (responses : List Response)
    (answers : List Answer) (attachments : List Attachment) (obj : Survey) :
    List QuestionRow :=
  let que := surveyQuestions questions obj
  let ans := surveyAnswers answers que
  let resps := surveyResponses responses obj
  let photos := surveyPhotos attachments resps
  (regularQuestions questions obj).map
    (reportRow (keyQuestions questions obj) photos resps ans)

/-- Decision made inside the response loop of `get_notes`: does this
response have an answer to `obj` whose body is in
`obj.key_choices.split(";")`?  A response emits a note exactly when this
holds (and, with at most one answer per (response, question) pair,
exactly one note). -/
def responseMatches (answers : List Answer) (obj : Question)
    (r : Response) : Bool :=
  ((responseAnswers answers r.id).filter (fun x => x.question_id == obj.id)).any
    (fun answer => (pySplit obj.key_choices ';').contains answer.body)

/-- Spec §3 invariant: each (response, question) pair appears at most
once among the answers. -/
def atMostOneAnswer (answers : List Answer) : Prop :=
  (answers.map (fun a => (a.response_id, a.question_id))).Nodup

/-- Discriminates the two kinds of `keys` entries: `true` exactly on the
`{name, answer}` question/answer pairs. -/
def KeyEntry.isQA : KeyEntry → Bool
  | KeyEntry.qa _ _ => true
  | KeyEntry.image _ => false

/-! Concrete test data for the spec's scenario claims. -/

/-- Survey S of the spec's concrete scenario (§8.6). -/
def sC1 : Survey := { id := 1, name := "S" }

/-- Q1 of the concrete scenario: regular, order 1 (regular per spec §3
means empty `key_choices`). -/
def q1C1 : Question :=
  { id := 1, survey_id := 1, text := "Q1 text", order := 1,
    required := false, type := "text", choices := "", key_choices := "" }

/-- Q2 of the concrete scenario: key, trigger set {"Yes"}, order 2. -/
def q2C1 : Question :=
  { id := 2, survey_id := 1, text := "Q2 text", order := 2,
    required := false, type := "text", choices := "Yes;No",
    key_choices := "Yes" }

/-- R1 of the concrete scenario, created at time T1 = 101. -/
def r1C1 : Response := { id := 1, survey_id := 1, created := 101 }

/-- R2 of the concrete scenario, created at time T2 = 102. -/
def r2C1 : Response := { id := 2, survey_id := 1, created := 102 }

/-- The four answers of the concrete scenario: R1 answers Q1 "red" and
Q2 "Yes"; R2 answers Q1 "blue" and Q2 "No". -/
def asC1 : List Answer :=
  [ { id := 1, response_id := 1, question_id := 1, body := "red" },
    { id := 2, response_id := 1, question_id := 2, body := "Yes" },
    { id := 3, response_id := 2, question_id := 1, body := "blue" },
    { id := 4, response_id := 2, question_id := 2, body := "No" } ]

/-- Survey for the note-keys scenario of C2. -/
def sC2 : Survey := { id := 1, name := "S2" }

/-- Regular question (empty `key_choices`) of the C2 scenario. -/
def q1C2 : Question :=
  { id := 1, survey_id := 1, text := "Q1 text", order := 1,
    required := false, type := "text", choices := "", key_choices := "" }

/-- Key question (trigger set {"Yes"}) of the C2 scenario. -/
def q2C2 : Question :=
  { id := 2, survey_id := 1, text := "Q2 text", order := 2,
    required := false, type := "text", choices := "Yes;No",
    key_choices := "Yes" }

/-- The single response of the C2 scenario. -/
def rC2 : Response := { id := 1, survey_id := 1, created := 201 }

/-- The C2 scenario's answers: the response answers the regular question
with the empty string (which matches the regular question's trigger list
`[""]` and so emits a note) and the key question with "Yes". -/
def asC2 : List Answer :=
  [ { id := 1, response_id := 1, question_id := 1, body := "" },
    { id := 2, response_id := 1, question_id := 2, body := "Yes" } ]

/-- Question with empty `key_choices` for the C5 counterexample. -/
def qC5 : Question :=
  { id := 1, survey_id := 1, text := "Q", order := 1, required := false,
    type := "text", choices := "", key_choices := "" }

/-- Response for the C5 counterexample. -/
def rC5 : Response := { id := 1, survey_id := 1, created := 500 }

/-- Empty-bodied answer to `qC5` for the C5 counterexample. -/
def aC5 : Answer := { id := 1, response_id := 1, question_id := 1, body := "" }

/-- Question with `key_choices` "Yes;Maybe" for the C8 scenario. -/
def qC8 : Question :=
  { id := 1, survey_id := 1, text := "QK", order := 1, required := false,
    type := "text", choices := "Yes;Maybe;No", key_choices := "Yes;Maybe" }

/-- Three responses for the C8 scenario. -/
def rsC8 : List Response :=
  [ { id := 1, survey_id := 1, created := 801 },
    { id := 2, survey_id := 1, created := 802 },
    { id := 3, survey_id := 1, created := 803 } ]

/-- The C8 scenario's answers to `qC8`: "Yes", "Maybe" and " Maybe"
(with a leading space, to exhibit the absence of trimming). -/
def asC8 : List Answer :=
  [ { id := 1, response_id := 1, question_id := 1, body := "Yes" },
    { id := 2, response_id := 2, question_id := 1, body := "Maybe" },
    { id := 3, response_id := 3, question_id := 1, body := " Maybe" } ]

/-- The Q1 row the code actually produces on the concrete scenario. -/
def rowC1 : QuestionRow :=
  { id := 1, text := "Q1 text", order := 1, choices := "",
    key_choices := "", notes := [], answer := some "red" }

/-- The single note the code produces on the C2 scenario: its keys pair
the KEY question Q2 with the response's answer "Yes". -/
def noteC2 : Note :=
  { created := 201, keys := [KeyEntry.qa "Q2 text" "Yes"] }

/-- The Q1 row the code produces on the C2 scenario. -/
def rowC2 : QuestionRow :=
  { id := 1, text := "Q1 text", order := 1, choices := "",
    key_choices := "", notes := [noteC2], answer := some "" }

/-- Survey for the photo fan-out scenario of C3. -/
def sC3 : Survey := { id := 3, name := "S3" }

/-- Regular question of the C3 scenario. -/
def qC3 : Question :=
  { id := 31, survey_id := 3, text := "Q31", order := 1, required := false,
    type := "text", choices := "", key_choices := "" }

/-- First response of the C3 scenario (owns attachment "u1" and emits the
note). -/
def r1C3 : Response := { id := 31, survey_id := 3, created := 301 }

/-- Second response of the C3 scenario (owns attachment "u2" and emits no
note). -/
def r2C3 : Response := { id := 32, survey_id := 3, created := 302 }

/-- The single answer of the C3 scenario: the first response answers the
regular question with the empty string (triggering a note). -/
def asC3 : List Answer :=
  [ { id := 31, response_id := 31, question_id := 31, body := "" } ]

/-- Attachments of the C3 scenario: one owned by each response. -/
def attsC3 : List Attachment :=
  [ { id := 1, object_id := 31, fileUrl := "u1" },
    { id := 2, object_id := 32, fileUrl := "u2" } ]

/-- The note the code produces on the C3 scenario: its keys hold BOTH
responses' photos, not only the triggering response's own "u1". -/
def noteC3 : Note :=
  { created := 301, keys := [KeyEntry.image "u1", KeyEntry.image "u2"] }

/-- The question row the code produces on the C3 scenario. -/
def rowC3 : QuestionRow :=
  { id := 31, text := "Q31", order := 1, choices := "",
    key_choices := "", notes := [noteC3], answer := some "" }

/-- Question of the C9 scenario. -/
def qC9 : Question :=
  { id := 91, survey_id := 9, text := "Q91", order := 1, required := false,
    type := "text", choices := "", key_choices := "" }

/-- First response of the C9 scenario (has no answer to the question). -/
def r1C9 : Response := { id := 91, survey_id := 9, created := 901 }

/-- Second response of the C9 scenario (the first one answering the
question). -/
def r2C9 : Response := { id := 92, survey_id := 9, created := 902 }

/-- The C9 scenario's single answer: the second response answers "z". -/
def aC9 : Answer :=
  { id := 91, response_id := 92, question_id := 91, body := "z" }

/-- Question of the C10 scenario. -/
def qC10 : Question :=
  { id := 100, survey_id := 10, text := "Q100", order := 1,
    required := false, type := "text", choices := "", key_choices := "Yes" }

/-- Response of the C10 scenario: it answers a different question
(id 999) with a body that would match the trigger, but never answers the
matched question itself. -/
def rC10 : Response := { id := 101, survey_id := 10, created := 1001 }

/-- The C10 scenario's answers. -/
def asC10 : List Answer :=
  [ { id := 101, response_id := 101, question_id := 999, body := "Yes" } ]

/-- C1, counterexample: on the spec's concrete scenario (§8.6) the code
does not produce the claimed notes list
`[{created: T1, keys: [{name: "Q1 text", answer: "red"}]}]` for the Q1
row: `get_notes` matches each row against the row's OWN `key_choices`
(empty for the regular Q1, so the trigger list is `[""]`), hence R1's
answer "red" triggers nothing. -/
theorem C1_counterexample :
    (get_questions [q1C1, q2C1] [r1C1, r2C1] asC1 [] sC1).map
        QuestionRow.notes
      ≠ [[{ created := 101, keys := [KeyEntry.qa "Q1 text" "red"] }]] := by
  decide

/-- C1, amended: on the concrete scenario the report's questions list is
exactly the Q1 row, but Q1's notes list is empty — neither R1 nor R2
produces a note because notes are matched against Q1's own empty
`key_choices` (trigger list `[""]`), and Q1's scalar answer is "red" from
R1, the first response. -/
theorem C1_report :
    get_questions [q1C1, q2C1] [r1C1, r2C1] asC1 [] sC1
      = [{ id := 1, text := "Q1 text", order := 1, choices := "",
           key_choices := "", notes := [], answer := some "red" }] := by
  decide

/-- C2, counterexample: a note IS emitted (the response answers the
regular question with "", which is in the regular question's trigger list
`[""]`), but its keys list is `[{name: "Q2 text", answer: "Yes"}]` — the
pairs of the KEY questions answered by the response — and not the
regular-question pairs `[{name: "Q1 text", answer: ""}]` that the claim
predicts: `get_questions` passes `dict_que[True]` (the key questions) as
the keys-building list. -/
theorem C2_counterexample :
    ((get_questions [q1C2, q2C2] [rC2] asC2 [] sC2).map
        (fun row => row.notes.map Note.keys)
      = [[[KeyEntry.qa "Q2 text" "Yes"]]])
    ∧ [KeyEntry.qa "Q2 text" "Yes"] ≠ [KeyEntry.qa "Q1 text" ""] := by
  decide

/-- C5, counterexample: a question whose `key_choices` string is empty
still produces a note, because Python `"".split(";") == [""]` makes the
trigger list `[""]` and an empty-bodied answer matches it. -/
theorem C5_counterexample :
    get_notes [] [] [rC5] [aC5] qC5 ≠ [] := by
  decide

/-- C8: the `key_choices` string is split on ';' into labels compared to
answer bodies by exact string equality: with `key_choices` "Yes;Maybe",
the split yields ["Yes", "Maybe"], a response answering "Maybe" produces
a note just as one answering "Yes" does, and a response answering
" Maybe" (untrimmed) produces none. -/
theorem C8_split_exact :
    pySplit "Yes;Maybe" ';' = ["Yes", "Maybe"]
    ∧ get_notes [] [] rsC8 asC8 qC8
        = [{ created := 801, keys := [] }, { created := 802, keys := [] }] := by
  decide

/-- Helper: every note of `get_notes` comes from some response of the
context, carries that response's timestamp, and its keys are the
`noteKeys` of that response's answer list. -/
theorem note_mem_get_notes {questions : List Question}
    {photos : List Attachment} {responses : List Response}
    {answers : List Answer} {obj : Question} {note : Note}
    (h : note ∈ get_notes questions photos responses answers obj) :
    ∃ r, r ∈ responses ∧ note.created = r.created ∧
      note.keys = noteKeys questions photos (responseAnswers answers r.id) := by
  rw [get_notes, List.mem_flatMap] at h
  obtain ⟨r, hr, hn⟩ := h
  refine ⟨r, hr, ?_⟩
  simp only [notesForResponse, List.mem_map] at hn
  obtain ⟨a, _, rfl⟩ := hn
  exact ⟨rfl, rfl⟩

/-- Helper: every row of `get_questions` is the serialization of some
regular question, in the context built by `get_questions`. -/
theorem row_mem_get_questions {questions : List Question}
    {responses : List Response} {answers : List Answer}
    {attachments : List Attachment} {s : Survey} {row : QuestionRow}
    (h : row ∈ get_questions questions responses answers attachments s) :
    ∃ q, q ∈ regularQuestions questions s ∧
      row = reportRow (keyQuestions questions s)
        (surveyPhotos attachments (surveyResponses responses s))
        (surveyResponses responses s)
        (surveyAnswers answers (surveyQuestions questions s)) q := by
  simp only [get_questions, List.mem_map] at h
  obtain ⟨q, hq, rfl⟩ := h
  exact ⟨q, hq, rfl⟩

/-- C2, amended: for every note emitted for a response, the note's keys
list (before the image entries) is the ordered list of
{question text, answer body} pairs for every KEY question answered by
that response, in key-question order, with key questions unanswered by
that response omitted — the source passes `dict_que[True]` (the key
questions), not the regular questions, as the keys-building list. -/
theorem C2_note_keys (questions : List Question) (responses : List Response)
    (answers : List Answer) (attachments : List Attachment) (s : Survey) :
    ∀ row ∈ get_questions questions responses answers attachments s,
    ∀ note ∈ row.notes,
    ∃ r, r ∈ surveyResponses responses s ∧ note.created = r.created ∧
      note.keys
        = ((keyQuestions questions s).flatMap (fun question =>
            ((responseAnswers
                (surveyAnswers answers (surveyQuestions questions s))
                r.id).filter (fun x => x.question_id == question.id)).map
              (fun answer => KeyEntry.qa question.text answer.body)))
          ++ (surveyPhotos attachments (surveyResponses responses s)).map
              (fun k => KeyEntry.image k.fileUrl) := by
  intro row hrow note hnote
  obtain ⟨q, hq, rfl⟩ := row_mem_get_questions hrow
  obtain ⟨r, hr, hc, hk⟩ := note_mem_get_notes (by simpa [reportRow] using hnote)
  refine ⟨r, hr, hc, ?_⟩
  simpa [noteKeys] using hk

/-- C2, witness: the amended statement at the concrete C2 scenario. -/
theorem C2_note_keys_witness :
    ∃ r, r ∈ surveyResponses [rC2] sC2 ∧ noteC2.created = r.created ∧
      noteC2.keys
        = ((keyQuestions [q1C2, q2C2] sC2).flatMap (fun question =>
            ((responseAnswers
                (surveyAnswers asC2 (surveyQuestions [q1C2, q2C2] sC2))
                r.id).filter (fun x => x.question_id == question.id)).map
              (fun answer => KeyEntry.qa question.text answer.body)))
          ++ (surveyPhotos [] (surveyResponses [rC2] sC2)).map
              (fun k => KeyEntry.image k.fileUrl) :=
  C2_note_keys [q1C2, q2C2] [rC2] asC2 [] sC2 rowC2 (by decide) noteC2
    (by decide)

/-- C3: every note emitted for a survey ends its keys list with one
{name: "image", keys: url} entry per attachment owned by ANY response of
that survey in the report window (the photo fan-out quirk): the keys list
is some prefix of question/answer pairs followed by the image entries of
the survey-wide photo list, which does not depend on the note's own
triggering response. -/
theorem C3_photo_fanout (questions : List Question)
    (responses : List Response) (answers : List Answer)
    (attachments : List Attachment) (s : Survey) :
    ∀ row ∈ get_questions questions responses answers attachments s,
    ∀ note ∈ row.notes,
    ∃ pre, pre.all KeyEntry.isQA = true ∧
      note.keys
        = pre ++ (surveyPhotos attachments (surveyResponses responses s)).map
            (fun k => KeyEntry.image k.fileUrl) := by
  intro row hrow note hnote
  obtain ⟨q, hq, rfl⟩ := row_mem_get_questions hrow
  obtain ⟨r, hr, hc, hk⟩ := note_mem_get_notes (by simpa [reportRow] using hnote)
  refine ⟨_, ?_, by simpa [noteKeys] using hk⟩
  rw [List.all_eq_true]
  intro e he
  simp only [List.mem_flatMap, List.mem_map] at he
  obtain ⟨q', _, a, _, rfl⟩ := he
  rfl

/-- C3, witness: the fan-out statement at the concrete C3 scenario, whose
note (emitted by the first response) carries the photos of both
responses. -/
theorem C3_photo_fanout_witness :
    ∃ pre, pre.all KeyEntry.isQA = true ∧
      noteC3.keys
        = pre ++ (surveyPhotos attsC3 (surveyResponses [r1C3, r2C3] sC3)).map
            (fun k => KeyEntry.image k.fileUrl) :=
  C3_photo_fanout [qC3] [r1C3, r2C3] asC3 attsC3 sC3 rowC3 (by decide) noteC3
    (by decide)

/-- C4: the questions array of a survey's report entry serializes exactly
the regular questions (is_key false, type not image-choice) of that
survey, never a key question, and each output row's notes field is the
note matcher run on that row's own question (hence with that row's own
`key_choices` as the trigger set). -/
theorem C4_regular_rows (questions : List Question)
    (responses : List Response) (answers : List Answer)
    (attachments : List Attachment) (s : Survey) :
    ((get_questions questions responses answers attachments s).map
        QuestionRow.id
      = (regularQuestions questions s).map Question.id)
    ∧ (∀ q ∈ regularQuestions questions s,
        q.survey_id = s.id ∧ q.type ≠ "select-image" ∧ q.is_key = false)
    ∧ (∀ row ∈ get_questions questions responses answers attachments s,
        ∃ q, q ∈ regularQuestions questions s ∧ row.id = q.id ∧
          row.key_choices = q.key_choices ∧
          row.notes = get_notes (keyQuestions questions s)
            (surveyPhotos attachments (surveyResponses responses s))
            (surveyResponses responses s)
            (surveyAnswers answers (surveyQuestions questions s)) q) := by
  refine ⟨?_, ?_, ?_⟩
  · simp [get_questions, List.map_map]
    intro a _
    rfl
  · intro q hq
    simp only [regularQuestions, surveyQuestions, List.mem_filter,
      Bool.and_eq_true, beq_iff_eq, bne_iff_ne, Bool.not_eq_true'] at hq
    exact ⟨hq.1.2.1, hq.1.2.2, hq.2⟩
  · intro row hrow
    obtain ⟨q, hq, rfl⟩ := row_mem_get_questions hrow
    exact ⟨q, hq, rfl, rfl, rfl⟩

/-- C4, witness: the row-shape statement at the concrete scenario of C1
(conjunct one in full, conjunct three at the produced Q1 row). -/
theorem C4_regular_rows_witness :
    ((get_questions [q1C1, q2C1] [r1C1, r2C1] asC1 [] sC1).map
        QuestionRow.id
      = (regularQuestions [q1C1, q2C1] sC1).map Question.id)
    ∧ (∃ q, q ∈ regularQuestions [q1C1, q2C1] sC1 ∧ rowC1.id = q.id ∧
        rowC1.key_choices = q.key_choices ∧
        rowC1.notes = get_notes (keyQuestions [q1C1, q2C1] sC1)
          (surveyPhotos [] (surveyResponses [r1C1, r2C1] sC1))
          (surveyResponses [r1C1, r2C1] sC1)
          (surveyAnswers asC1 (surveyQuestions [q1C1, q2C1] sC1)) q) :=
  ⟨(C4_regular_rows [q1C1, q2C1] [r1C1, r2C1] asC1 [] sC1).1,
   (C4_regular_rows [q1C1, q2C1] [r1C1, r2C1] asC1 [] sC1).2.2 rowC1
     (by decide)⟩

/-- C5, amended: for a question whose `key_choices` string is empty the
trigger list is `[""]` (Python `"".split(";") == [""]`), so the note
matcher produces zero notes for it provided no response's answer to that
question has an empty body; an empty-bodied answer to such a question
does produce a note (see the counterexample). -/
theorem C5_empty_trigger (questions : List Question)
    (photos : List Attachment) (responses : List Response)
    (answers : List Answer) (obj : Question)
    (hkc : obj.key_choices = "")
    (hbody : ∀ a ∈ answers, a.question_id = obj.id → a.body ≠ "") :
    get_notes questions photos responses answers obj = [] := by
  rw [get_notes, List.flatMap_eq_nil_iff]
  intro r hr
  simp only [notesForResponse]
  rw [List.map_eq_nil_iff, List.filter_eq_nil_iff]
  intro a ha
  rw [List.mem_filter] at ha
  have ha' : a ∈ answers := (List.mem_filter.mp ha.1).1
  have hq : a.question_id = obj.id := by simpa using ha.2
  have hb := hbody a ha' hq
  rw [hkc]
  have hsplit : pySplit "" ';' = [""] := by decide
  rw [hsplit]
  intro hcontains
  exact hb (by simpa using hcontains)

/-- C5, witness: the amended statement at a question with empty
`key_choices` and a response whose answer to it has body "x". -/
theorem C5_empty_trigger_witness :
    get_notes [] [] [rC5]
      [{ id := 9, response_id := 1, question_id := 1, body := "x" }] qC5
      = [] :=
  C5_empty_trigger [] [] [rC5]
    [{ id := 9, response_id := 1, question_id := 1, body := "x" }] qC5
    rfl (by decide)

/-- Helper: under the at-most-one-answer invariant, at most one answer of
the input carries a given (response id, question id) pair. -/
theorem atMostOne_filter {answers : List Answer}
    (h : atMostOneAnswer answers) (rid qid : Nat) :
    ((answers.filter
        (fun a => a.question_id == qid && a.response_id == rid)).length ≤ 1) := by
  induction answers with
  | nil => simp
  | cons a l ih =>
    rw [atMostOneAnswer, List.map_cons, List.nodup_cons] at h
    obtain ⟨hnotmem, hnd⟩ := h
    by_cases hmatch : (a.question_id == qid && a.response_id == rid) = true
    · rw [List.filter_cons, if_pos hmatch]
      simp only [Bool.and_eq_true, beq_iff_eq] at hmatch
      have hnil :
          l.filter (fun b => b.question_id == qid && b.response_id == rid)
            = [] := by
        rw [List.filter_eq_nil_iff]
        intro b hb hbm
        simp only [Bool.and_eq_true, beq_iff_eq] at hbm
        apply hnotmem
        rw [List.mem_map]
        refine ⟨b, hb, ?_⟩
        rw [hbm.1, hbm.2, hmatch.1, hmatch.2]
      rw [hnil]
      simp
    · rw [List.filter_cons, if_neg hmatch]
      exact ih hnd

/-- Helper: mapping a constant over a filtered sublist of a list with at
most one element yields the singleton when some element passes and the
empty list otherwise. -/
theorem filter_map_const_len_le_one {α β : Type} (l : List α) (p : α → Bool)
    (c : β) (h : l.length ≤ 1) :
    (l.filter p).map (fun _ => c) = if l.any p then [c] else [] := by
  rcases l with _ | ⟨a, _ | ⟨b, t⟩⟩
  · simp
  · by_cases hp : p a = true <;> simp [hp]
  · simp at h

/-- Helper: with at most one answer of this response to `obj`, the
response-loop body of `get_notes` emits the singleton note exactly when
`responseMatches` holds. -/
theorem notesForResponse_eq_if (questions : List Question)
    (photos : List Attachment) (answers : List Answer) (obj : Question)
    (r : Response)
    (hlen : ((responseAnswers answers r.id).filter
        (fun x => x.question_id == obj.id)).length ≤ 1) :
    notesForResponse questions photos answers obj r
      = if responseMatches answers obj r
        then [{ created := r.created,
                keys := noteKeys questions photos
                  (responseAnswers answers r.id) }]
        else [] := by
  simp only [notesForResponse, responseMatches]
  exact filter_map_const_len_le_one _ _ _ hlen

/-- Helper: under the at-most-one-answer invariant, `get_notes` is the
map of the note constructor over the responses that match, in response
order. -/
theorem get_notes_eq_filter_map (questions : List Question)
    (photos : List Attachment) (responses : List Response)
    (answers : List Answer) (obj : Question) (h : atMostOneAnswer answers) :
    get_notes questions photos responses answers obj
      = (responses.filter (responseMatches answers obj)).map
          (fun r => { created := r.created,
                      keys := noteKeys questions photos
                        (responseAnswers answers r.id) }) := by
  induction responses with
  | nil => rfl
  | cons r rs ih =>
    rw [get_notes, List.flatMap_cons, ← get_notes]
    have hlen : ((responseAnswers answers r.id).filter
        (fun x => x.question_id == obj.id)).length ≤ 1 := by
      rw [responseAnswers, List.filter_filter]
      exact atMostOne_filter h r.id obj.id
    rw [notesForResponse_eq_if questions photos answers obj r hlen]
    by_cases hm : responseMatches answers obj r = true
    · rw [if_pos hm, List.filter_cons_of_pos hm, List.map_cons, ih,
        List.singleton_append]
    · rw [if_neg hm, List.filter_cons_of_neg hm, List.nil_append, ih]

/-- C6: under the invariant that each (response, question) pair has at
most one answer, the notes of a question are exactly one note per
matching response in response order (hence never more notes than
responses), and every note's triggering answer body is a member of the
split trigger list. -/
theorem C6_note_monotonic (questions : List Question)
    (photos : List Attachment) (responses : List Response)
    (answers : List Answer) (obj : Question) (h : atMostOneAnswer answers) :
    (get_notes questions photos responses answers obj
        = (responses.filter (responseMatches answers obj)).map
            (fun r => { created := r.created,
                        keys := noteKeys questions photos
                          (responseAnswers answers r.id) }))
    ∧ (get_notes questions photos responses answers obj).length
        ≤ responses.length
    ∧ ∀ note ∈ get_notes questions photos responses answers obj,
        ∃ a, a ∈ answers ∧ a.question_id = obj.id ∧
          a.body ∈ pySplit obj.key_choices ';' := by
  refine ⟨get_notes_eq_filter_map questions photos responses answers obj h,
    ?_, ?_⟩
  · rw [get_notes_eq_filter_map questions photos responses answers obj h,
      List.length_map]
    exact List.length_filter_le _ _
  · intro note hnote
    rw [get_notes, List.mem_flatMap] at hnote
    obtain ⟨r, hr, hn⟩ := hnote
    simp only [notesForResponse, List.mem_map] at hn
    obtain ⟨a, ha, _⟩ := hn
    rw [List.mem_filter] at ha
    obtain ⟨ha1, htrig⟩ := ha
    rw [List.mem_filter] at ha1
    obtain ⟨ha2, hqid⟩ := ha1
    simp only [responseAnswers, List.mem_filter] at ha2
    exact ⟨a, ha2.1, by simpa using hqid, by simpa using htrig⟩

/-- C6, witness: the note-shape and length bound at the C8 scenario
(three responses, two of which match). -/
theorem C6_note_monotonic_witness :
    (get_notes [] [] rsC8 asC8 qC8
        = (rsC8.filter (responseMatches asC8 qC8)).map
            (fun r => { created := r.created,
                        keys := noteKeys [] []
                          (responseAnswers asC8 r.id) }))
    ∧ (get_notes [] [] rsC8 asC8 qC8).length ≤ rsC8.length :=
  ⟨(C6_note_monotonic [] [] rsC8 asC8 qC8
      (by rw [atMostOneAnswer]; decide)).1,
   (C6_note_monotonic [] [] rsC8 asC8 qC8
      (by rw [atMostOneAnswer]; decide)).2.1⟩

/-- C7: the regular and key partitions of a survey's non-image-choice
questions together are a permutation of (hence equal as a set to) all
its non-image-choice questions, and no question lies in both
partitions. -/
theorem C7_partition (questions : List Question) (s : Survey) :
    (regularQuestions questions s ++ keyQuestions questions s).Perm
        (surveyQuestions questions s)
    ∧ ∀ q, ¬(q ∈ regularQuestions questions s
              ∧ q ∈ keyQuestions questions s) := by
  constructor
  · have h := List.filter_append_perm (fun x => !x.is_key)
      (surveyQuestions questions s)
    simpa [regularQuestions, keyQuestions, Bool.not_not] using h
  · intro q hq
    obtain ⟨h1, h2⟩ := hq
    rw [regularQuestions, List.mem_filter] at h1
    rw [keyQuestions, List.mem_filter] at h2
    rw [h2.2] at h1
    exact absurd h1.2 (by simp)

/-- C7, witness: the partition statement at the concrete scenario survey,
with the no-overlap conjunct instantiated at Q1. -/
theorem C7_partition_witness :
    (regularQuestions [q1C1, q2C1] sC1 ++ keyQuestions [q1C1, q2C1] sC1).Perm
        (surveyQuestions [q1C1, q2C1] sC1)
    ∧ ¬(q1C1 ∈ regularQuestions [q1C1, q2C1] sC1
          ∧ q1C1 ∈ keyQuestions [q1C1, q2C1] sC1) :=
  ⟨(C7_partition [q1C1, q2C1] sC1).1, (C7_partition [q1C1, q2C1] sC1).2 q1C1⟩

/-- C9: the scalar answer of a question row is `none` when no response
answered the question, and otherwise the body of the question's answer
from the first response, in input response order, that has one. -/
theorem C9_first_answer (responses : List Response) (answers : List Answer)
    (obj : Question) :
    ((∀ r ∈ responses, ∀ a ∈ answers,
        ¬(a.response_id = r.id ∧ a.question_id = obj.id)) →
      get_answer responses answers obj = none)
    ∧ ∀ pre r post a rest,
        responses = pre ++ r :: post →
        (∀ r' ∈ pre, ∀ x ∈ answers,
          ¬(x.response_id = r'.id ∧ x.question_id = obj.id)) →
        (responseAnswers answers r.id).filter
            (fun x => x.question_id == obj.id) = a :: rest →
        get_answer responses answers obj = some a.body := by
  constructor
  · intro hnone
    rw [get_answer, List.findSome?_eq_none_iff]
    intro r hr
    simp only [Option.map_eq_none', List.head?_eq_none_iff,
      List.filter_eq_nil_iff]
    intro x hx hq
    simp only [responseAnswers, List.mem_filter] at hx
    exact hnone r hr x hx.1 ⟨by simpa using hx.2, by simpa using hq⟩
  · intro pre r post a rest hresp hpre hfilter
    subst hresp
    rw [get_answer, List.findSome?_append]
    have hprenone :
        pre.findSome? (fun response =>
          (((responseAnswers answers response.id).filter
              (fun x => x.question_id == obj.id)).head?).map
            (fun answer => answer.body)) = none := by
      rw [List.findSome?_eq_none_iff]
      intro r' hr'
      simp only [Option.map_eq_none', List.head?_eq_none_iff,
        List.filter_eq_nil_iff]
      intro x hx hq
      simp only [responseAnswers, List.mem_filter] at hx
      exact hpre r' hr' x hx.1 ⟨by simpa using hx.2, by simpa using hq⟩
    rw [hprenone, Option.none_or, List.findSome?_cons, hfilter]
    simp

/-- C9, witness: the first-response rule at the C9 scenario, where the
first response has no answer to the question and the second answers
"z". -/
theorem C9_first_answer_witness :
    get_answer [r1C9, r2C9] [aC9] qC9 = some aC9.body :=
  (C9_first_answer [r1C9, r2C9] [aC9] qC9).2 [r1C9] r2C9 [] aC9 []
    rfl (by decide) (by decide)

/-- C10: a response with no answer to the matched question contributes
zero notes — its loop iteration emits nothing and dropping it from the
response list leaves the notes unchanged — and (totality of the
embedding) no error arises: the response is silently skipped. -/
theorem C10_no_answer_skip (questions : List Question)
    (photos : List Attachment) (answers : List Answer) (obj : Question)
    (r : Response) (rs1 rs2 : List Response)
    (h : ∀ a ∈ answers, a.response_id = r.id → a.question_id ≠ obj.id) :
    notesForResponse questions photos answers obj r = []
    ∧ get_notes questions photos (rs1 ++ r :: rs2) answers obj
        = get_notes questions photos (rs1 ++ rs2) answers obj := by
  have hfor : notesForResponse questions photos answers obj r = [] := by
    simp only [notesForResponse]
    have hnil : (responseAnswers answers r.id).filter
        (fun x => x.question_id == obj.id) = [] := by
      rw [List.filter_eq_nil_iff]
      intro x hx hq
      simp only [responseAnswers, List.mem_filter] at hx
      exact h x hx.1 (by simpa using hx.2) (by simpa using hq)
    rw [hnil]
    rfl
  refine ⟨hfor, ?_⟩
  rw [get_notes, get_notes, List.flatMap_append, List.flatMap_append,
    List.flatMap_cons, hfor, List.nil_append]

/-- C10, witness: the skip statement at the C10 scenario, whose response
answers only a different question. -/
theorem C10_no_answer_skip_witness :
    notesForResponse [] [] asC10 qC10 rC10 = []
    ∧ get_notes [] [] ([] ++ rC10 :: []) asC10 qC10
        = get_notes [] [] ([] ++ []) asC10 qC10 :=
  C10_no_answer_skip [] [] asC10 qC10 rC10 [] [] (by decide)
